import Mathlib

/-!
Verification of the vibeinvaders game logic.

Shallow embedding of the Python sources (`base_alien.py`, `player.py`,
`missile.py`, `powerup.py`, `effects.py`, `game.py`, `high_score.py`).
Positions and speeds, which Python stores as floats, are modelled as
rationals; the arithmetic performed by the game on them (sums, products,
integer literals, halving) is exact in ℚ.  Integer quantities (lives,
health, timers, scores) are ℤ or ℕ.  Randomness (`random.random`,
`random.uniform`, `random.choices`, `random.randint`) is supplied by an
explicit oracle.  Purely visual attributes (colors, particle systems,
draw routines) are not modelled.
-/

namespace VibeInvaders

/-! ## base_alien.py -/

/-- Which side of an `ArmoredAlien` was hit (`damage_side`). -/
inductive Side where
  | left
  | right
deriving DecidableEq, Repr

/-- The three alien classes instantiated by the game:
`ScoutAlien`, `ArmoredAlien`, `EliteAlien` (Python dynamic dispatch on
`take_damage`/`move` is modelled by matching on this tag). -/
inductive Archetype where
  | scout
  | armored
  | elite
deriving DecidableEq, Repr

/-- State of one alien.  Fields common to `BaseAlien` plus the
subclass-specific fields `has_armor`/`damage_side` (Armored) and
`has_shield`/`hull_intact` (Elite); the subclass fields are inert for the
other archetypes. -/
structure Alien where
  x : ℚ
  y : ℚ
  size : ℕ
  speed : ℚ
  alive : Bool
  health : ℤ
  maxHealth : ℤ
  points : ℕ
  archetype : Archetype
  hasArmor : Bool
  damageSide : Option Side
  hasShield : Bool
  hullIntact : Bool
deriving DecidableEq, Repr

/-- `ScoutAlien.__init__` with default `size=30`, `speed=1`. -/
def mkScout (x y : ℚ) : Alien :=
  { x := x, y := y, size := 30, speed := 1, alive := true,
    health := 1, maxHealth := 1, points := 10, archetype := .scout,
    hasArmor := false, damageSide := none,
    hasShield := false, hullIntact := true }

/-- `ArmoredAlien.__init__` with default `size=30`, `speed=1.5`. -/
def mkArmored (x y : ℚ) : Alien :=
  { x := x, y := y, size := 30, speed := 3/2, alive := true,
    health := 2, maxHealth := 2, points := 15, archetype := .armored,
    hasArmor := true, damageSide := none,
    hasShield := false, hullIntact := true }

/-- `EliteAlien.__init__` with default `size=35`, `speed=2`. -/
def mkElite (x y : ℚ) : Alien :=
  { x := x, y := y, size := 35, speed := 2, alive := true,
    health := 3, maxHealth := 3, points := 20, archetype := .elite,
    hasArmor := false, damageSide := none,
    hasShield := true, hullIntact := true }

/-- `take_damage(missile, damage)` of the class the alien belongs to.
`missileX` is `missile.x` (only `ArmoredAlien` reads the missile, to set
`damage_side`).  Returns the new alien state and the Python return value
(`True` iff destroyed by this hit). -/
def takeDamage (a : Alien) (missileX : ℚ) (damage : ℤ) : Alien × Bool :=
  match a.archetype with
  | .scout =>
      ({ a with alive := false }, true)
  | .armored =>
      let side : Side := if missileX < a.x then .left else .right
      let a := { a with damageSide := some side }
      if a.hasArmor then
        ({ a with hasArmor := false, health := a.health - damage }, false)
      else
        ({ a with alive := false }, true)
  | .elite =>
      if a.hasShield then
        ({ a with hasShield := false, health := a.health - damage }, false)
      else if a.hullIntact then
        ({ a with hullIntact := false, health := a.health - damage }, false)
      else
        ({ a with alive := false }, true)

/-- `BaseAlien.move(direction, speed_multiplier)`; `EliteAlien.move`
additionally adds a random y-drift drawn from `random.uniform(-0.5, 0.5)`,
supplied here as `drift` (0 is passed for the other archetypes). -/
def Alien.move (a : Alien) (direction : ℤ) (speedMultiplier : ℚ) (drift : ℚ) : Alien :=
  let a := { a with x := a.x + direction * a.speed * speedMultiplier }
  match a.archetype with
  | .elite => { a with y := a.y + drift }
  | _ => a

/-- `BaseAlien.move_down(amount)`. -/
def Alien.moveDown (a : Alien) (amount : ℚ) : Alien :=
  { a with y := a.y + amount }

/-! ## missile.py -/

/-- A `Missile` (player missile or `AlienMissile`; the two classes share
the fields the game logic reads).  `damage` is 1 for every missile the
game creates.  Alien missiles move with `vertical_speed < 0` interpreted
as in `AlienMissile.update` (`y -= vertical_speed`). -/
structure Missile where
  x : ℚ
  y : ℚ
  verticalSpeed : ℚ
  horizontalSpeed : ℚ
  width : ℕ
  height : ℕ
  active : Bool
  damage : ℤ
deriving DecidableEq, Repr

/-- `Missile.__init__(x, y, horizontal_speed, missile_type)` for the two
types the player fires: `"standard"` (width 4, height 15, speed 7) and
`"rapid"` (width 3, height 12, speed 9). -/
def mkMissile (x y horizontalSpeed : ℚ) (rapid : Bool) : Missile :=
  if rapid then
    { x := x, y := y, verticalSpeed := 9, horizontalSpeed := horizontalSpeed,
      width := 3, height := 12, active := true, damage := 1 }
  else
    { x := x, y := y, verticalSpeed := 7, horizontalSpeed := horizontalSpeed,
      width := 4, height := 15, active := true, damage := 1 }

/-- `AlienMissile.__init__(x, y, target_x, target_y)`.  The constructor
normalises the direction vector to the target with a square root, which is
irrational; the normalised velocity pair `(hs, vs)` is therefore supplied
by the caller/oracle.  Width 6, height 15, damage 1. -/
def mkAlienMissile (x y horizontalSpeed verticalSpeed : ℚ) : Missile :=
  { x := x, y := y, verticalSpeed := verticalSpeed,
    horizontalSpeed := horizontalSpeed,
    width := 6, height := 15, active := true, damage := 1 }

/-- `Missile.update(screen_width)`: move up/sideways, deactivate
off-screen. -/
def Missile.update (m : Missile) (screenWidth : ℚ) : Missile :=
  let m := { m with y := m.y - m.verticalSpeed, x := m.x + m.horizontalSpeed }
  if m.y < 0 ∨ m.x < 0 ∨ m.x > screenWidth then { m with active := false } else m

/-- `AlienMissile.update(screen_width, screen_height)`: also deactivates
below the bottom edge. -/
def Missile.updateAlien (m : Missile) (screenWidth screenHeight : ℚ) : Missile :=
  let m := { m with y := m.y - m.verticalSpeed, x := m.x + m.horizontalSpeed }
  if m.y < 0 ∨ m.y > screenHeight ∨ m.x < 0 ∨ m.x > screenWidth then
    { m with active := false }
  else m

/-- `BaseAlien.check_collision(missile)`: circle test
`sqrt((ax-mx)² + (ay-my)²) < size//2 + missile.width//2`.  Both sides are
nonnegative, so squaring gives the equivalent exact rational test used
here. -/
def Alien.checkCollision (a : Alien) (m : Missile) : Bool :=
  if ¬ a.alive then false
  else
    decide ((a.x - m.x) * (a.x - m.x) + (a.y - m.y) * (a.y - m.y)
      < ((a.size / 2 + m.width / 2 : ℕ) : ℚ) * ((a.size / 2 + m.width / 2 : ℕ) : ℚ))

/-- Fold a sequence of `take_damage` calls with the game's standard unit
damage over an alien; each list entry is the x coordinate of the missile
delivering that hit. -/
def hitSeq (a : Alien) (mxs : List ℚ) : Alien :=
  mxs.foldl (fun a mx => (takeDamage a mx 1).1) a

/-- Characterisation of a `ScoutAlien` after `k` unit hits. -/
def ScoutInv (k : ℕ) (a : Alien) : Prop :=
  a.archetype = .scout ∧ a.maxHealth = 1 ∧ a.health = 1 ∧ a.alive = decide (k < 1)

/-- Characterisation of an `ArmoredAlien` after `k` unit hits. -/
def ArmoredInv (k : ℕ) (a : Alien) : Prop :=
  a.archetype = .armored ∧ a.maxHealth = 2 ∧
  a.health = (if k = 0 then 2 else 1) ∧
  a.hasArmor = decide (k = 0) ∧
  a.alive = decide (k < 2)

/-- Characterisation of an `EliteAlien` after `k` unit hits. -/
def EliteInv (k : ℕ) (a : Alien) : Prop :=
  a.archetype = .elite ∧ a.maxHealth = 3 ∧
  a.health = (if k = 0 then 3 else if k = 1 then 2 else 1) ∧
  a.hasShield = decide (k = 0) ∧
  a.hullIntact = decide (k ≤ 1) ∧
  a.alive = decide (k < 3)

/-! ## player.py -/

/-- State of the `Player`.  Colors and the flash state of the sprite are
rendering concerns and are not modelled; `is_damaged`/`damage_timer`
are kept because `take_damage` and `update` write them. -/
structure Player where
  width : ℕ
  height : ℕ
  x : ℤ
  y : ℤ
  speed : ℤ
  screenWidth : ℤ
  screenHeight : ℤ
  velocity : ℤ
  maxSpeed : ℤ
  lastDirection : ℤ
  lives : ℤ
  maxLives : ℤ
  isInvulnerable : Bool
  invulnerableTimer : ℤ
  invulnerableDuration : ℤ
  isDamaged : Bool
  damageTimer : ℤ
  level : ℕ
  hasShield : Bool
  shieldTimer : ℤ
  shieldDuration : ℤ
  hasRapidFire : Bool
  rapidFireTimer : ℤ
  rapidFireDuration : ℤ
  fireCooldown : ℤ
  rapidFireCooldown : ℤ
  lastFireTime : ℤ
  hasMultiShot : Bool
  multiShotTimer : ℤ
  multiShotDuration : ℤ
  hasSlowTime : Bool
  slowTimeTimer : ℤ
  slowTimeDuration : ℤ
  slowTimeFactor : ℚ
  thrusterAnimation : ℕ

/-- `ship_upgrades[level]` dimensions (`update_ship_appearance` applies
the width/height for the current level; the color is visual only). -/
def shipUpgradeDims (level : ℕ) : Option (ℕ × ℕ) :=
  if level = 1 then some (40, 30)
  else if level = 2 then some (44, 32)
  else if level = 3 then some (48, 35)
  else none

/-- `Player.update_ship_appearance()`. -/
def Player.updateShipAppearance (p : Player) : Player :=
  match shipUpgradeDims p.level with
  | some (w, h) => { p with width := w, height := h }
  | none => p

/-- `Player.__init__(screen_width, screen_height)` followed by the
`update_ship_appearance()` call it makes. -/
def mkPlayer (screenWidth screenHeight : ℤ) : Player :=
  Player.updateShipAppearance
  { width := 40, height := 30,
    x := screenWidth / 2, y := screenHeight - 80,
    speed := 5,
    screenWidth := screenWidth, screenHeight := screenHeight,
    velocity := 0, maxSpeed := 5, lastDirection := 0,
    lives := 3, maxLives := 3,
    isInvulnerable := false, invulnerableTimer := 0, invulnerableDuration := 120,
    isDamaged := false, damageTimer := 0,
    level := 1,
    hasShield := false, shieldTimer := 0, shieldDuration := 600,
    hasRapidFire := false, rapidFireTimer := 0, rapidFireDuration := 600,
    fireCooldown := 30, rapidFireCooldown := 10, lastFireTime := 0,
    hasMultiShot := false, multiShotTimer := 0, multiShotDuration := 600,
    hasSlowTime := false, slowTimeTimer := 0, slowTimeDuration := 360,
    slowTimeFactor := 1/2,
    thrusterAnimation := 0 }

/-- `Player.move_left()`. -/
def Player.moveLeft (p : Player) : Player :=
  let p := { p with velocity := -p.maxSpeed, lastDirection := -1 }
  let p := { p with x := p.x + p.velocity }
  if p.x < (p.width : ℤ) / 2 then { p with x := (p.width : ℤ) / 2 } else p

/-- `Player.move_right()`. -/
def Player.moveRight (p : Player) : Player :=
  let p := { p with velocity := p.maxSpeed, lastDirection := 1 }
  let p := { p with x := p.x + p.velocity }
  if p.x > p.screenWidth - (p.width : ℤ) / 2 then
    { p with x := p.screenWidth - (p.width : ℤ) / 2 }
  else p

/-- `Player.stop_moving()`. -/
def Player.stopMoving (p : Player) : Player := { p with velocity := 0 }

/-- `Player.level_up()`: increment level, capped at 3, and re-apply the
ship appearance. -/
def Player.levelUp (p : Player) : Player :=
  let lvl := p.level + 1
  let lvl := if lvl > 3 then 3 else lvl
  Player.updateShipAppearance { p with level := lvl }

/-- `Player.take_damage()`: returns the new state and whether a life was
actually lost (the Python return value). -/
def Player.takeDamage (p : Player) : Player × Bool :=
  if ¬ p.isInvulnerable ∧ ¬ p.hasShield then
    let p := { p with lives := p.lives - 1, isDamaged := true, damageTimer := 60 }
    if p.lives > 0 then
      ({ p with isInvulnerable := true, invulnerableTimer := p.invulnerableDuration }, true)
    else
      (p, true)
  else
    (p, false)

/-- `Player.add_life()`. -/
def Player.addLife (p : Player) : Player × Bool :=
  if p.lives < p.maxLives then ({ p with lives := p.lives + 1 }, true) else (p, false)

/-- `Player.activate_shield()`. -/
def Player.activateShield (p : Player) : Player :=
  { p with hasShield := true, shieldTimer := p.shieldDuration }

/-- `Player.activate_rapid_fire()`. -/
def Player.activateRapidFire (p : Player) : Player :=
  { p with hasRapidFire := true, rapidFireTimer := p.rapidFireDuration }

/-- `Player.activate_multi_shot()`. -/
def Player.activateMultiShot (p : Player) : Player :=
  { p with hasMultiShot := true, multiShotTimer := p.multiShotDuration }

/-- `Player.activate_slow_time()`. -/
def Player.activateSlowTime (p : Player) : Player :=
  { p with hasSlowTime := true, slowTimeTimer := p.slowTimeDuration }

/-- `Player.update()`, "Update invulnerability" block. -/
def Player.updateInvulnerability (p : Player) : Player :=
  if p.isInvulnerable then
    let p : Player := { p with invulnerableTimer := p.invulnerableTimer - 1 }
    if p.invulnerableTimer ≤ 0 then { p with isInvulnerable := false } else p
  else p

/-- `Player.update()`, "Update damage effect" block (the color flashing
it performs is visual only and omitted). -/
def Player.updateDamageFx (p : Player) : Player :=
  if p.isDamaged then
    let p : Player := { p with damageTimer := p.damageTimer - 1 }
    if p.damageTimer ≤ 0 then { p with isDamaged := false } else p
  else p

/-- `Player.update()`, "Update shield power-up" block. -/
def Player.updateShieldTimer (p : Player) : Player :=
  if p.hasShield then
    let p : Player := { p with shieldTimer := p.shieldTimer - 1 }
    if p.shieldTimer ≤ 0 then { p with hasShield := false } else p
  else p

/-- `Player.update()`, "Update rapid fire power-up" block. -/
def Player.updateRapidFireTimer (p : Player) : Player :=
  if p.hasRapidFire then
    let p : Player := { p with rapidFireTimer := p.rapidFireTimer - 1 }
    if p.rapidFireTimer ≤ 0 then { p with hasRapidFire := false } else p
  else p

/-- `Player.update()`, "Update multi-shot power-up" block. -/
def Player.updateMultiShotTimer (p : Player) : Player :=
  if p.hasMultiShot then
    let p : Player := { p with multiShotTimer := p.multiShotTimer - 1 }
    if p.multiShotTimer ≤ 0 then { p with hasMultiShot := false } else p
  else p

/-- `Player.update()`, "Update slow-time power-up" block. -/
def Player.updateSlowTimeTimer (p : Player) : Player :=
  if p.hasSlowTime then
    let p : Player := { p with slowTimeTimer := p.slowTimeTimer - 1 }
    if p.slowTimeTimer ≤ 0 then { p with hasSlowTime := false } else p
  else p

/-- `Player.update()`: per-tick countdown of the invulnerability, damage
and power-up timers, in the source's order, then the thruster-animation
counter. -/
def Player.update (p : Player) : Player :=
  let p := p.updateInvulnerability
  let p := p.updateDamageFx
  let p := p.updateShieldTimer
  let p := p.updateRapidFireTimer
  let p := p.updateMultiShotTimer
  let p := p.updateSlowTimeTimer
  { p with thrusterAnimation := (p.thrusterAnimation + 1) % 12 }

/-- `Player.fire_missile()`: `now` is `pygame.time.get_ticks()`.  Returns
the new player state and `None`, or the fired missile(s) (a list of three
under multi-shot, a single standard/rapid missile otherwise). -/
def Player.fireMissile (p : Player) (now : ℤ) : Player × Option (List Missile) :=
  let missileVelocity : ℚ := (p.velocity : ℚ) / 2
  let cooldown := if p.hasRapidFire then p.rapidFireCooldown else p.fireCooldown
  if now - p.lastFireTime < cooldown then (p, none)
  else
    let p := { p with lastFireTime := now }
    let halfH : ℚ := ((p.height / 2 : ℕ) : ℚ)
    if p.hasMultiShot then
      (p, some [mkMissile ((p.x : ℚ) - 15) ((p.y : ℚ) - halfH) missileVelocity false,
                mkMissile (p.x : ℚ) ((p.y : ℚ) - halfH - 5) missileVelocity false,
                mkMissile ((p.x : ℚ) + 15) ((p.y : ℚ) - halfH) missileVelocity false])
    else
      (p, some [mkMissile (p.x : ℚ) ((p.y : ℚ) - halfH) missileVelocity p.hasRapidFire])

/-! ## powerup.py -/

/-- The five power-up types. -/
inductive PowerUpType where
  | shield
  | rapidFire
  | multiShot
  | extraLife
  | slowTime
deriving DecidableEq, Repr

/-- A `PowerUp` (colors are visual only). -/
structure PowerUp where
  x : ℚ
  y : ℚ
  width : ℕ
  height : ℕ
  type : PowerUpType
  active : Bool
  speed : ℚ
deriving DecidableEq, Repr

/-- `PowerUp.__init__(x, y, type)`. -/
def mkPowerUp (x y : ℚ) (type : PowerUpType) : PowerUp :=
  { x := x, y := y, width := 20, height := 20, type := type,
    active := true, speed := 1 }

/-- `spawn_random_powerup(x, y)`: the weighted `random.choices` draw is
supplied by the oracle as `type`. -/
def spawnRandomPowerup (x y : ℚ) (type : PowerUpType) : PowerUp :=
  mkPowerUp x y type

/-- `PowerUp.update()`: drift down, deactivate below y = 800. -/
def PowerUp.update (pu : PowerUp) : PowerUp :=
  let pu := { pu with y := pu.y + pu.speed }
  if pu.y > 800 then { pu with active := false } else pu

/-- Truncation of a float coordinate to an int, as the `pygame.Rect`
constructor performs (C conversion toward zero). -/
def ratTrunc (q : ℚ) : ℤ :=
  q.num.tdiv q.den

/-- `pygame.Rect(ax, ay, aw, ah).colliderect(Rect(bx, by, bw, bh))`:
true iff the rectangles genuinely overlap (touching edges do not
collide). -/
def collideRect (ax ay : ℤ) (aw ah : ℕ) (bx bY : ℤ) (bw bh : ℕ) : Bool :=
  decide (ax < bx + bw ∧ bx < ax + aw ∧ ay < bY + bh ∧ bY < ay + ah)

/-- `PowerUp.check_collision(player)`: rectangle test between the player
rect and the power-up rect. -/
def PowerUp.checkCollision (pu : PowerUp) (p : Player) : Bool :=
  collideRect (p.x - (p.width : ℤ) / 2) (p.y - (p.height : ℤ) / 2) p.width p.height
    (ratTrunc (pu.x - ((pu.width / 2 : ℕ) : ℚ))) (ratTrunc (pu.y - ((pu.height / 2 : ℕ) : ℚ)))
    pu.width pu.height

/-! ## effects.py -/

/-- Discriminates `ShieldEffect` and `SlowTimeEffect` (their update logic
is the same frame-counting; `Explosion` is separate). -/
inductive EffectKind where
  | shieldFx
  | slowTimeFx
deriving DecidableEq, Repr

/-- Common state of `ShieldEffect`/`SlowTimeEffect` (the geometry they
hold is rendering-only and omitted). -/
structure Effect where
  kind : EffectKind
  duration : ℕ
  currentFrame : ℕ
  active : Bool
deriving DecidableEq, Repr

/-- `ShieldEffect.__init__`: duration 600 frames. -/
def mkShieldEffect : Effect :=
  { kind := .shieldFx, duration := 600, currentFrame := 0, active := true }

/-- `SlowTimeEffect.__init__`: duration 60 frames. -/
def mkSlowTimeEffect : Effect :=
  { kind := .slowTimeFx, duration := 60, currentFrame := 0, active := true }

/-- `ShieldEffect.update()` / `SlowTimeEffect.update()`. -/
def Effect.update (e : Effect) : Effect :=
  let e := { e with currentFrame := e.currentFrame + 1 }
  if e.currentFrame ≥ e.duration then { e with active := false } else e

/-- State of an `Explosion` (its particle system is rendering-only and
randomised; only the lifetime counter drives game logic). -/
structure Explosion where
  x : ℚ
  y : ℚ
  size : ℕ
  lifetime : ℕ
  currentFrame : ℕ
  active : Bool
deriving DecidableEq, Repr

/-- `Explosion.__init__(x, y, size)` (default size 30). -/
def mkExplosion (x y : ℚ) (size : ℕ) : Explosion :=
  { x := x, y := y, size := size, lifetime := 30, currentFrame := 0, active := true }

/-- `Explosion.update()`. -/
def Explosion.update (e : Explosion) : Explosion :=
  let e := { e with currentFrame := e.currentFrame + 1 }
  if e.currentFrame ≥ e.lifetime then { e with active := false } else e

/-! ## high_score.py -/

/-- Outcome of probing and reading the high-score file in
`HighScoreManager.load_scores`: the file may be missing
(`os.path.exists` false), reading or JSON-parsing it may raise, or it
may parse to a list of entries. -/
inductive FileReadOutcome (α : Type) where
  | missing : FileReadOutcome α
  | failure : FileReadOutcome α
  | success : α → FileReadOutcome α
deriving DecidableEq, Repr

/-- `HighScoreManager.load_scores()` as a total function of the file
outcome: the `try`/`except` catches every exception and ends with
`high_scores = []`; the missing-file branch also assigns `[]` (and calls
`save_scores`, which has its own catch-all and does not alter
`high_scores`). -/
def loadScores {α : Type} (outcome : FileReadOutcome (List α)) : List α :=
  match outcome with
  | .missing => []
  | .failure => []
  | .success scores => scores

/-! ## game.py -/

/-- The three difficulty names (`difficulty_multipliers` keys). -/
inductive Difficulty where
  | easy
  | normal
  | hard
deriving DecidableEq, Repr

/-- `difficulty_multipliers`: easy 0.75, normal 1.0, hard 1.5. -/
def difficultyMultiplier : Difficulty → ℚ
  | .easy => 3/4
  | .normal => 1
  | .hard => 3/2

/-- One entry of `level_configs` (the `color` entry is visual only). -/
structure LevelConfig where
  rows : ℕ
  cols : ℕ
  alienClass : Archetype
  speed : ℚ
  points : ℕ
  powerUpChance : ℚ
  alienFireChance : ℚ
  verticalMove : ℚ
deriving DecidableEq, Repr

/-- `level_configs` as built in `Game.__init__`.  There `difficulty` is
always `"normal"`, so each `get_difficulty_multiplier()` factor baked
into `speed`/`alien_fire_chance` is 1. -/
def levelConfigs : List LevelConfig :=
  [ { rows := 4, cols := 8, alienClass := .scout,
      speed := 1/2 * difficultyMultiplier .normal, points := 10,
      powerUpChance := 1/10,
      alienFireChance := 5/10000 * difficultyMultiplier .normal,
      verticalMove := 8 },
    { rows := 5, cols := 8, alienClass := .armored,
      speed := 8/10 * difficultyMultiplier .normal, points := 15,
      powerUpChance := 15/100,
      alienFireChance := 1/1000 * difficultyMultiplier .normal,
      verticalMove := 10 },
    { rows := 5, cols := 10, alienClass := .elite,
      speed := 12/10 * difficultyMultiplier .normal, points := 20,
      powerUpChance := 2/10,
      alienFireChance := 15/10000 * difficultyMultiplier .normal,
      verticalMove := 12 } ]

/-- `self.level_configs[self.level - 1]`.  The game only evaluates this
for levels 1..3 (Python would raise `IndexError` otherwise); the default
is never reached. -/
def levelConfig (level : ℕ) : LevelConfig :=
  levelConfigs.getD (level - 1)
    { rows := 0, cols := 0, alienClass := .scout, speed := 0, points := 0,
      powerUpChance := 0, alienFireChance := 0, verticalMove := 0 }

/-- The alien-class constructor call `alien_class(x, y, color=alien_color)`
in `create_aliens`: size and speed are left at each class's defaults. -/
def mkAlienOfClass (cls : Archetype) (x y : ℚ) : Alien :=
  match cls with
  | .scout => mkScout x y
  | .armored => mkArmored x y
  | .elite => mkElite x y

/-- `Game.create_aliens()`: build the grid for `level`, with
`horizontal_spacing = 80`, `vertical_spacing = 70`,
`start_x = (width - cols*80) // 2 + 80 // 2`, `start_y = 50`.
Note the constructor call passes only position and color, not the
configured speed (the local `alien_speed = config["speed"]` is unused in
the source). -/
def createAliens (level : ℕ) (width : ℤ) : List Alien :=
  let config := levelConfig level
  let startX : ℤ := (width - (config.cols : ℤ) * 80) / 2 + 80 / 2
  let startY : ℤ := 50
  ((List.range config.rows).map fun (row : ℕ) =>
    (List.range config.cols).map fun (col : ℕ) =>
      mkAlienOfClass config.alienClass
        ((startX : ℚ) + (col : ℚ) * 80) ((startY : ℚ) + (row : ℚ) * 70)).join

/-- The full game state (`Game.__init__` fields).  `screen`, fonts and
the help-screen text are rendering-only; of the help screen only its
`active` flag is kept, since `update`/`handle_movement` branch on it. -/
structure GameState where
  width : ℤ
  height : ℤ
  player : Player
  missiles : List Missile
  alienMissiles : List Missile
  aliens : List Alien
  alienDirection : ℤ
  score : ℤ
  highScore : ℤ
  gameOver : Bool
  gameWon : Bool
  level : ℕ
  levelComplete : Bool
  maxLevel : ℕ
  showStartupMessage : Bool
  difficulty : Difficulty
  explosions : List Explosion
  effects : List Effect
  powerUps : List PowerUp
  helpActive : Bool
  lastFireTime : ℤ

/-- `Game.__init__()`. -/
def mkGame : GameState :=
  { width := 1024, height := 768,
    player := mkPlayer 1024 768,
    missiles := [], alienMissiles := [],
    aliens := createAliens 1 1024,
    alienDirection := 1,
    score := 0, highScore := 0,
    gameOver := false, gameWon := false,
    level := 1, levelComplete := false, maxLevel := 3,
    showStartupMessage := true,
    difficulty := .normal,
    explosions := [], effects := [], powerUps := [],
    helpActive := false,
    lastFireTime := 0 }

/-- `Game.get_difficulty_multiplier()`. -/
def GameState.getDifficultyMultiplier (g : GameState) : ℚ :=
  difficultyMultiplier g.difficulty

/-- `Game.set_difficulty(difficulty)`: with the argument already one of
the three valid names (the dictionary membership test always passes),
store it and rescale every alien's speed to
`config["speed"] * get_difficulty_multiplier()`. -/
def GameState.setDifficulty (g : GameState) (d : Difficulty) : GameState :=
  { g with
    difficulty := d,
    aliens := g.aliens.map fun a =>
      { a with speed := (levelConfig g.level).speed * difficultyMultiplier d } }

/-- The space-bar fire branch of `Game.handle_movement` (lines 180-195):
missiles are only appended while fewer than 15 are live, and only when
the 250 ms game-level cooldown has passed (or no missile is live);
`now` stands for the `pygame.time.get_ticks()` calls of this frame. -/
def GameState.fireStep (g : GameState) (now : ℤ) (spacePressed : Bool) : GameState :=
  if ¬ spacePressed then g
  else if g.missiles.length < 15 then
    let pm := g.player.fireMissile now
    let g := { g with player := pm.1 }
    if g.missiles.isEmpty ∨ now - g.lastFireTime > 250 then
      match pm.2 with
      | some ms => { g with missiles := g.missiles ++ ms, lastFireTime := now }
      | none => g
    else g
  else g


/-- A game state with the missile cap reached (15 live player missiles);
used to witness the fire-path cap behaviour. -/
def cappedGame : GameState :=
  { mkGame with missiles := List.replicate 15 (mkMissile 0 0 0 false) }


/-! ### Game.update -/

/-- Oracle supplying every random draw `Game.update` makes, indexed by
the position of the consuming entity in its list for this tick:
`fires i` is the outcome of `random.random() < alien_fire_chance` for
alien `i`; `aimVelocity i` is the normalised direction-to-target velocity
pair the `AlienMissile` constructor computes from
`player.x + randint(-50,50)` (its square-root normalisation is
irrational, so the resulting pair is drawn from the oracle);
`drifts i` is Elite alien `i`'s `random.uniform(-0.5, 0.5)` y-drift;
`drops i` is the outcome of `random.random() < power_up_chance` for the
alien destroyed by missile `i`; `dropTypes i` is the weighted
`random.choices` power-up type for that drop. -/
structure Oracle where
  fires : ℕ → Bool
  aimVelocity : ℕ → ℚ × ℚ
  drifts : ℕ → ℚ
  drops : ℕ → Bool
  dropTypes : ℕ → PowerUpType

/-- An oracle for runs where no random event fires. -/
def quietOracle : Oracle :=
  { fires := fun _ => false, aimVelocity := fun _ => (0, 0),
    drifts := fun _ => 0, drops := fun _ => false,
    dropTypes := fun _ => .shield }

/-- The level-advance branch of `Game.update` (lines 221-252): bump the
level, clear the flag, empty the missile/power-up/effect collections,
re-center the player and upgrade its ship, and build the next level's
alien grid (the debug prints are side-effect free). -/
def advanceLevel (g : GameState) : GameState :=
  let g := { g with
    level := g.level + 1, levelComplete := false,
    missiles := [], alienMissiles := [], powerUps := [],
    explosions := [], effects := [] }
  let p := { g.player with x := g.width / 2, velocity := 0 }
  let g := { g with player := p.levelUp }
  { g with aliens := createAliens g.level g.width }

/-- The "Update missiles" loop: each missile is updated, then inactive
missiles are removed (iterating over a copy and removing from the live
list is order-preserving map-then-filter). -/
def stepPlayerMissiles (ms : List Missile) (width : ℚ) : List Missile :=
  (ms.map fun m => m.update width).filter fun m => m.active

/-- The "Update alien missiles" loop. -/
def stepAlienMissiles (ms : List Missile) (width height : ℚ) : List Missile :=
  (ms.map fun m => m.updateAlien width height).filter fun m => m.active

/-- The direction-reversal scan (lines 270-278): some living alien pokes
past the right edge while moving right, or past the left edge while
moving left.  The source loop breaks at the first such alien after
flipping once, so the flip happens exactly when such an alien exists. -/
def needsReverse (aliens : List Alien) (width : ℤ) (dir : ℤ) : Bool :=
  aliens.any fun a =>
    a.alive &&
      ((decide (a.x + ((a.size / 2 : ℕ) : ℚ) > (width : ℚ)) && decide (dir > 0)) ||
       (decide (a.x - ((a.size / 2 : ℕ) : ℚ) < 0) && decide (dir < 0)))

/-- The alien-motion loop (lines 289-305): move every living alien (with
the already-flipped direction), move it down if the formation bounced
this tick, stop the whole loop with `game_over` if it reached the
player's row, and let it fire an alien missile by oracle decision.
Returns the updated alien list, the alien missiles fired this tick, and
whether the bottom was reached (`i` indexes the oracle draws). -/
def moveAliensLoop (o : Oracle) (dir : ℤ) (mult vmove : ℚ) (moveDown : Bool)
    (bottomY : ℚ) (i : ℕ) : List Alien → List Alien × List Missile × Bool
  | [] => ([], [], false)
  | a :: rest =>
    if a.alive then
      let a1 := a.move dir mult (o.drifts i)
      let a2 := if moveDown then a1.moveDown vmove else a1
      if a2.y + ((a2.size / 2 : ℕ) : ℚ) > bottomY then
        (a2 :: rest, [], true)
      else
        let fired :=
          if o.fires i then
            [mkAlienMissile a2.x (a2.y + ((a2.size / 2 : ℕ) : ℚ))
              (o.aimVelocity i).1 (o.aimVelocity i).2]
          else []
        let r := moveAliensLoop o dir mult vmove moveDown bottomY (i + 1) rest
        (a2 :: r.1, fired ++ r.2.1, r.2.2)
    else
      let r := moveAliensLoop o dir mult vmove moveDown bottomY (i + 1) rest
      (a :: r.1, r.2.1, r.2.2)

/-- Inner loop of the missile-alien collision phase: find the first
living alien the missile's circle test hits, apply `take_damage` to it,
and report the updated alien list, the destruction flag, and the hit
alien's position (`take_damage` never moves the alien); `none` when the
missile hits nothing. -/
def hitFirstAlien (m : Missile) : List Alien → Option (List Alien × Bool × ℚ × ℚ)
  | [] => none
  | a :: rest =>
    if a.alive && a.checkCollision m then
      let r := takeDamage a m.x m.damage
      some (r.1 :: rest, r.2, r.1.x, r.1.y)
    else
      match hitFirstAlien m rest with
      | some (rest', d, px, py) => some (a :: rest', d, px, py)
      | none => none

/-- The missile-alien collision phase (lines 307-340), processing the
missiles in order: a missile that hits is removed and spawns a small
explosion at its own position; if the hit destroyed the alien the score
grows by the level's `points`, a size-40 explosion appears at the alien,
and the oracle's drop roll may spawn a power-up there; a hit the alien
survived scores a flat 5.  Returns the surviving missiles, updated
aliens, score delta, and the explosions/power-ups spawned. -/
def missileCollisions (o : Oracle) (cfg : LevelConfig) (i : ℕ) :
    List Missile → List Alien →
      List Missile × List Alien × ℤ × List Explosion × List PowerUp
  | [], aliens => ([], aliens, 0, [], [])
  | m :: rest, aliens =>
    match hitFirstAlien m aliens with
    | none =>
      let r := missileCollisions o cfg (i + 1) rest aliens
      (m :: r.1, r.2.1, r.2.2.1, r.2.2.2.1, r.2.2.2.2)
    | some (aliens', destroyed, ax, ay) =>
      let smallFx := mkExplosion m.x m.y 30
      let scoreDelta : ℤ := if destroyed then (cfg.points : ℤ) else 5
      let bigFx := if destroyed then [mkExplosion ax ay 40] else []
      let drop :=
        if destroyed && o.drops i then [spawnRandomPowerup ax ay (o.dropTypes i)]
        else []
      let r := missileCollisions o cfg (i + 1) rest aliens'
      (r.1, r.2.1, scoreDelta + r.2.2.1, smallFx :: (bigFx ++ r.2.2.2.1),
        drop ++ r.2.2.2.2)

/-- The alien-missile/player collision phase (lines 342-370), processing
the alien missiles in order: a missile whose rect overlaps the player
rect is removed and spawns an explosion, and the player takes damage;
when `take_damage` reports a lost life and the lives are now ≤ 0,
`game_over` is raised.  Returns surviving missiles, the updated player,
whether `game_over` was set, and the explosions spawned. -/
def alienMissileHits : List Missile → Player → List Missile × Player × Bool × List Explosion
  | [], p => ([], p, false, [])
  | m :: rest, p =>
    if collideRect (p.x - (p.width : ℤ) / 2) (p.y - (p.height : ℤ) / 2) p.width p.height
        (ratTrunc (m.x - ((m.width / 2 : ℕ) : ℚ))) (ratTrunc (m.y - ((m.height / 2 : ℕ) : ℚ)))
        m.width m.height then
      let hit := p.takeDamage
      let overNow := hit.2 && decide (hit.1.lives ≤ 0)
      let r := alienMissileHits rest hit.1
      (r.1, r.2.1, overNow || r.2.2.1, mkExplosion m.x m.y 30 :: r.2.2.2)
    else
      let r := alienMissileHits rest p
      (m :: r.1, r.2.1, r.2.2.1, r.2.2.2)

/-- The power-up phase (lines 372-400): each power-up falls; an inactive
one is removed; one colliding with the player applies its effect to the
player (adding a visual effect for shield and slow-time) and is removed.
Returns the surviving power-ups, the updated player, and the new visual
effects in spawn order. -/
def powerUpPhase : List PowerUp → Player → List PowerUp × Player × List Effect
  | [], p => ([], p, [])
  | pu :: rest, p =>
    let pu := pu.update
    if ¬ pu.active then
      powerUpPhase rest p
    else if pu.checkCollision p then
      let pFx : Player × List Effect :=
        match pu.type with
        | .shield => (p.activateShield, [mkShieldEffect])
        | .rapidFire => (p.activateRapidFire, [])
        | .multiShot => (p.activateMultiShot, [])
        | .extraLife => ((p.addLife).1, [])
        | .slowTime => (p.activateSlowTime, [mkSlowTimeEffect])
      let r := powerUpPhase rest pFx.1
      (r.1, r.2.1, pFx.2 ++ r.2.2)
    else
      let r := powerUpPhase rest p
      (pu :: r.1, r.2.1, r.2.2)

/-- The body of `Game.update()` past the level-complete gate, in the
source's phase order: missile updates, formation bounce, alien motion,
missile-alien collisions, alien-missile/player collisions, power-ups,
explosion/effect aging, the all-dead level-complete check, and the
high-score update. -/
def normalTick (o : Oracle) (g : GameState) : GameState :=
      let g : GameState := { g with
        missiles := stepPlayerMissiles g.missiles (g.width : ℚ) }
      let g : GameState := { g with
        alienMissiles := stepAlienMissiles g.alienMissiles (g.width : ℚ) (g.height : ℚ) }
      let rev := needsReverse g.aliens g.width g.alienDirection
      let g : GameState :=
        { g with alienDirection := if rev then -g.alienDirection else g.alienDirection }
      let config := levelConfig g.level
      let mult : ℚ := if g.player.hasSlowTime then g.player.slowTimeFactor else 1
      let bottomY : ℚ := ((g.player.y - (g.player.height : ℤ) / 2 : ℤ) : ℚ)
      let moved := moveAliensLoop o g.alienDirection mult config.verticalMove rev
        bottomY 0 g.aliens
      let g : GameState := { g with
        aliens := moved.1,
        alienMissiles := g.alienMissiles ++ moved.2.1,
        gameOver := g.gameOver || moved.2.2 }
      let collided := missileCollisions o config 0 g.missiles g.aliens
      let g : GameState := { g with
        missiles := collided.1,
        aliens := collided.2.1,
        score := g.score + collided.2.2.1,
        explosions := g.explosions ++ collided.2.2.2.1,
        powerUps := g.powerUps ++ collided.2.2.2.2 }
      let hits := alienMissileHits g.alienMissiles g.player
      let g : GameState := { g with
        alienMissiles := hits.1,
        player := hits.2.1,
        gameOver := g.gameOver || hits.2.2.1,
        explosions := g.explosions ++ hits.2.2.2 }
      let pus := powerUpPhase g.powerUps g.player
      let g : GameState := { g with
        powerUps := pus.1,
        player := pus.2.1,
        effects := g.effects ++ pus.2.2 }
      let g : GameState := { g with
        explosions := (g.explosions.map Explosion.update).filter fun e => e.active,
        effects := (g.effects.map Effect.update).filter fun e => e.active }
      let g : GameState :=
        if g.aliens.all fun a => !a.alive then { g with levelComplete := true } else g
      if g.score > g.highScore then { g with highScore := g.score } else g

/-- `Game.update()` for one tick, with all random draws supplied by the
oracle: gate on help screen/startup message, gate on game over/victory,
player update, the level-complete gate, and otherwise the normal tick. -/
def GameState.update (o : Oracle) (g : GameState) : GameState :=
  if g.helpActive ∨ g.showStartupMessage then g
  else if g.gameOver ∨ g.gameWon then g
  else
    let g : GameState := { g with player := g.player.update }
    if g.levelComplete then
      if g.level < g.maxLevel then advanceLevel g
      else { g with gameWon := true }
    else normalTick o g


/-- The fresh game one tick after clearing level 1's aliens: startup
message dismissed and `level_complete` raised; used to witness the
level-advance gate. -/
def levelCompleteGame : GameState :=
  { mkGame with showStartupMessage := false, levelComplete := true }

lemma scoutInv_step {k : ℕ} {a : Alien} (h : ScoutInv k a) (mx : ℚ) :
    ScoutInv (k + 1) (takeDamage a mx 1).1 := by
  obtain ⟨h1, h2, h3, h4⟩ := h
  simp [ScoutInv, takeDamage, h1, h2, h3]

lemma armoredInv_step {k : ℕ} {a : Alien} (h : ArmoredInv k a) (mx : ℚ) :
    ArmoredInv (k + 1) (takeDamage a mx 1).1 := by
  obtain ⟨h1, h2, h3, h4, h5⟩ := h
  rcases Nat.eq_zero_or_pos k with hk | hk
  · subst hk
    norm_num at h3 h4 h5
    simp [ArmoredInv, takeDamage, h1, h2, h3, h4, h5] <;> omega
  · have hk0 : k ≠ 0 := by omega
    simp only [hk0, decide_eq_false_iff_not, if_neg] at h3 h4
    simp [ArmoredInv, takeDamage, h1, h2, h3, h4, h5, hk0] <;> omega

lemma eliteInv_step {k : ℕ} {a : Alien} (h : EliteInv k a) (mx : ℚ) :
    EliteInv (k + 1) (takeDamage a mx 1).1 := by
  obtain ⟨h1, h2, h3, h4, h5, h6⟩ := h
  rcases Nat.eq_zero_or_pos k with hk | hk
  · subst hk
    norm_num at h3 h4 h5 h6
    simp [EliteInv, takeDamage, h1, h2, h3, h4, h5, h6] <;> omega
  · have hk0 : k ≠ 0 := by omega
    simp only [hk0, decide_eq_false_iff_not, if_neg] at h4
    rcases Nat.lt_or_ge k 2 with hk1 | hk1
    · have hk1' : k = 1 := by omega
      subst hk1'
      norm_num at h3 h5 h6
      simp [EliteInv, takeDamage, h1, h2, h3, h4, h5, h6] <;> omega
    · have hk1' : ¬ k ≤ 1 := by omega
      have hk1'' : k ≠ 1 := by omega
      simp only [hk1', decide_eq_false_iff_not, if_neg, hk0, hk1''] at h3 h5
      simp [EliteInv, takeDamage, h1, h2, h3, h4, h5, h6, hk0, hk1', hk1''] <;> omega

lemma scoutInv_hitSeq (mxs : List ℚ) : ∀ (k : ℕ) (a : Alien), ScoutInv k a →
    ScoutInv (k + mxs.length) (hitSeq a mxs) := by
  induction mxs with
  | nil => intro k a h; simpa [hitSeq] using h
  | cons mx rest ih =>
      intro k a h
      have hlen : k + (mx :: rest).length = (k + 1) + rest.length := by
        simp; omega
      rw [hlen]
      exact ih (k + 1) _ (scoutInv_step h mx)

lemma armoredInv_hitSeq (mxs : List ℚ) : ∀ (k : ℕ) (a : Alien), ArmoredInv k a →
    ArmoredInv (k + mxs.length) (hitSeq a mxs) := by
  induction mxs with
  | nil => intro k a h; simpa [hitSeq] using h
  | cons mx rest ih =>
      intro k a h
      have hlen : k + (mx :: rest).length = (k + 1) + rest.length := by
        simp; omega
      rw [hlen]
      exact ih (k + 1) _ (armoredInv_step h mx)

lemma eliteInv_hitSeq (mxs : List ℚ) : ∀ (k : ℕ) (a : Alien), EliteInv k a →
    EliteInv (k + mxs.length) (hitSeq a mxs) := by
  induction mxs with
  | nil => intro k a h; simpa [hitSeq] using h
  | cons mx rest ih =>
      intro k a h
      have hlen : k + (mx :: rest).length = (k + 1) + rest.length := by
        simp; omega
      rw [hlen]
      exact ih (k + 1) _ (eliteInv_step h mx)

/-- **C1.**  Destruction depends only on the hit count, never on the
damage values: one `take_damage` call kills a fresh Scout (returning
`True`); on a fresh Armored alien the first call returns `False` and
leaves it alive with the armor stripped and the second call kills it; on
a fresh Elite the first two calls return `False` and leave it alive
(shield, then hull, stripped) and the third kills it — for arbitrary
positive damage values and arbitrary missile positions. -/
theorem C1_hits_to_kill (x y mx1 mx2 mx3 : ℚ) (d1 d2 d3 : ℤ)
    (hd1 : 0 < d1) (hd2 : 0 < d2) (hd3 : 0 < d3) :
    ((takeDamage (mkScout x y) mx1 d1).2 = true ∧
      (takeDamage (mkScout x y) mx1 d1).1.alive = false) ∧
    ((takeDamage (mkArmored x y) mx1 d1).2 = false ∧
      (takeDamage (mkArmored x y) mx1 d1).1.alive = true ∧
      (takeDamage (mkArmored x y) mx1 d1).1.hasArmor = false ∧
      (takeDamage (takeDamage (mkArmored x y) mx1 d1).1 mx2 d2).2 = true ∧
      (takeDamage (takeDamage (mkArmored x y) mx1 d1).1 mx2 d2).1.alive = false) ∧
    ((takeDamage (mkElite x y) mx1 d1).2 = false ∧
      (takeDamage (mkElite x y) mx1 d1).1.alive = true ∧
      (takeDamage (mkElite x y) mx1 d1).1.hasShield = false ∧
      (takeDamage (takeDamage (mkElite x y) mx1 d1).1 mx2 d2).2 = false ∧
      (takeDamage (takeDamage (mkElite x y) mx1 d1).1 mx2 d2).1.alive = true ∧
      (takeDamage (takeDamage (mkElite x y) mx1 d1).1 mx2 d2).1.hullIntact = false ∧
      (takeDamage (takeDamage (takeDamage (mkElite x y) mx1 d1).1 mx2 d2).1 mx3 d3).2
        = true ∧
      (takeDamage (takeDamage (takeDamage (mkElite x y) mx1 d1).1 mx2 d2).1 mx3 d3).1.alive
        = false) := by
  refine ⟨⟨?_, ?_⟩, ⟨?_, ?_, ?_, ?_, ?_⟩, ⟨?_, ?_, ?_, ?_, ?_, ?_, ?_, ?_⟩⟩ <;>
    simp [takeDamage, mkScout, mkArmored, mkElite]

/-- Witness for `C1_hits_to_kill` at explicit damage values. -/
theorem C1_hits_to_kill_witness :
    ((takeDamage (mkScout 0 0) 0 1).2 = true ∧
      (takeDamage (mkScout 0 0) 0 1).1.alive = false) ∧
    ((takeDamage (mkArmored 0 0) 0 1).2 = false ∧
      (takeDamage (mkArmored 0 0) 0 1).1.alive = true ∧
      (takeDamage (mkArmored 0 0) 0 1).1.hasArmor = false ∧
      (takeDamage (takeDamage (mkArmored 0 0) 0 1).1 0 2).2 = true ∧
      (takeDamage (takeDamage (mkArmored 0 0) 0 1).1 0 2).1.alive = false) ∧
    ((takeDamage (mkElite 0 0) 0 1).2 = false ∧
      (takeDamage (mkElite 0 0) 0 1).1.alive = true ∧
      (takeDamage (mkElite 0 0) 0 1).1.hasShield = false ∧
      (takeDamage (takeDamage (mkElite 0 0) 0 1).1 0 2).2 = false ∧
      (takeDamage (takeDamage (mkElite 0 0) 0 1).1 0 2).1.alive = true ∧
      (takeDamage (takeDamage (mkElite 0 0) 0 1).1 0 2).1.hullIntact = false ∧
      (takeDamage (takeDamage (takeDamage (mkElite 0 0) 0 1).1 0 2).1 0 3).2 = true ∧
      (takeDamage (takeDamage (takeDamage (mkElite 0 0) 0 1).1 0 2).1 0 3).1.alive
        = false) :=
  C1_hits_to_kill 0 0 0 0 0 1 2 3 (by decide) (by decide) (by decide)

/-- **C2 (counterexample).**  The claimed invariant "while `alive` is
true, `0 < health`" fails: one `take_damage` call with damage 2 on a
fresh Armored alien is absorbed by the armor (the alien stays alive) yet
drives `health` to 0. -/
theorem C2_counterexample :
    ¬ ((takeDamage (mkArmored 0 0) 0 2).1.alive = true →
        0 < (takeDamage (mkArmored 0 0) 0 2).1.health) := by
  simp [takeDamage, mkArmored]

/-- **C2 (amended).**  With the unit damage the game always deals:
health stays in `(0, max_health]` at every point of every hit sequence
(alive or not), and `alive` is determined purely by the number of hits —
a Scout is alive iff it has taken fewer than 1 hit, an Armored alien iff
fewer than 2, an Elite iff fewer than 3.  `alive` is *not* driven by
`health` reaching 0: the killing hit leaves `health` unchanged and still
positive. -/
theorem C2_health_band_and_hit_count (x y : ℚ) (mxs : List ℚ) :
    (0 < (hitSeq (mkScout x y) mxs).health ∧
      (hitSeq (mkScout x y) mxs).health ≤ (hitSeq (mkScout x y) mxs).maxHealth ∧
      (hitSeq (mkScout x y) mxs).alive = decide (mxs.length < 1)) ∧
    (0 < (hitSeq (mkArmored x y) mxs).health ∧
      (hitSeq (mkArmored x y) mxs).health ≤ (hitSeq (mkArmored x y) mxs).maxHealth ∧
      (hitSeq (mkArmored x y) mxs).alive = decide (mxs.length < 2)) ∧
    (0 < (hitSeq (mkElite x y) mxs).health ∧
      (hitSeq (mkElite x y) mxs).health ≤ (hitSeq (mkElite x y) mxs).maxHealth ∧
      (hitSeq (mkElite x y) mxs).alive = decide (mxs.length < 3)) := by
  have hs : ScoutInv (0 + mxs.length) (hitSeq (mkScout x y) mxs) :=
    scoutInv_hitSeq mxs 0 _ (by simp [ScoutInv, mkScout])
  have ha : ArmoredInv (0 + mxs.length) (hitSeq (mkArmored x y) mxs) :=
    armoredInv_hitSeq mxs 0 _ (by simp [ArmoredInv, mkArmored])
  have he : EliteInv (0 + mxs.length) (hitSeq (mkElite x y) mxs) :=
    eliteInv_hitSeq mxs 0 _ (by simp [EliteInv, mkElite])
  obtain ⟨-, hs2, hs3, hs4⟩ := hs
  obtain ⟨-, ha2, ha3, -, ha5⟩ := ha
  obtain ⟨-, he2, he3, -, -, he6⟩ := he
  simp only [Nat.zero_add] at hs4 ha3 ha5 he3 he6
  refine ⟨⟨?_, ?_, hs4⟩, ⟨?_, ?_, ha5⟩, ⟨?_, ?_, he6⟩⟩ <;>
    simp [hs3, hs2, ha3, ha2, he3, he2] <;> split <;> omega

/-! ### Shield power-up timer (player.py lines 140-143 and 181-185) -/

lemma shieldFields_updateInvulnerability (p : Player) :
    (p.updateInvulnerability).hasShield = p.hasShield ∧
    (p.updateInvulnerability).shieldTimer = p.shieldTimer ∧
    (p.updateInvulnerability).shieldDuration = p.shieldDuration := by
  simp only [Player.updateInvulnerability]
  split_ifs <;> simp

lemma shieldFields_updateDamageFx (p : Player) :
    (p.updateDamageFx).hasShield = p.hasShield ∧
    (p.updateDamageFx).shieldTimer = p.shieldTimer ∧
    (p.updateDamageFx).shieldDuration = p.shieldDuration := by
  simp only [Player.updateDamageFx]
  split_ifs <;> simp

lemma shieldFields_updateShieldTimer (p : Player) :
    (p.updateShieldTimer).hasShield = (p.hasShield && decide (0 < p.shieldTimer - 1)) ∧
    (p.updateShieldTimer).shieldTimer
      = (if p.hasShield then p.shieldTimer - 1 else p.shieldTimer) ∧
    (p.updateShieldTimer).shieldDuration = p.shieldDuration := by
  simp only [Player.updateShieldTimer]
  split_ifs <;> simp_all <;> omega

lemma shieldFields_updateRapidFireTimer (p : Player) :
    (p.updateRapidFireTimer).hasShield = p.hasShield ∧
    (p.updateRapidFireTimer).shieldTimer = p.shieldTimer ∧
    (p.updateRapidFireTimer).shieldDuration = p.shieldDuration := by
  simp only [Player.updateRapidFireTimer]
  split_ifs <;> simp

lemma shieldFields_updateMultiShotTimer (p : Player) :
    (p.updateMultiShotTimer).hasShield = p.hasShield ∧
    (p.updateMultiShotTimer).shieldTimer = p.shieldTimer ∧
    (p.updateMultiShotTimer).shieldDuration = p.shieldDuration := by
  simp only [Player.updateMultiShotTimer]
  split_ifs <;> simp

lemma shieldFields_updateSlowTimeTimer (p : Player) :
    (p.updateSlowTimeTimer).hasShield = p.hasShield ∧
    (p.updateSlowTimeTimer).shieldTimer = p.shieldTimer ∧
    (p.updateSlowTimeTimer).shieldDuration = p.shieldDuration := by
  simp only [Player.updateSlowTimeTimer]
  split_ifs <;> simp

lemma update_shield_fields (p : Player) :
    (p.update).hasShield = (p.hasShield && decide (0 < p.shieldTimer - 1)) ∧
    (p.update).shieldTimer = (if p.hasShield then p.shieldTimer - 1 else p.shieldTimer) ∧
    (p.update).shieldDuration = p.shieldDuration := by
  obtain ⟨a1, a2, a3⟩ := shieldFields_updateInvulnerability p
  obtain ⟨b1, b2, b3⟩ := shieldFields_updateDamageFx p.updateInvulnerability
  obtain ⟨c1, c2, c3⟩ :=
    shieldFields_updateShieldTimer p.updateInvulnerability.updateDamageFx
  obtain ⟨d1, d2, d3⟩ := shieldFields_updateRapidFireTimer
    p.updateInvulnerability.updateDamageFx.updateShieldTimer
  obtain ⟨e1, e2, e3⟩ := shieldFields_updateMultiShotTimer
    p.updateInvulnerability.updateDamageFx.updateShieldTimer.updateRapidFireTimer
  obtain ⟨f1, f2, f3⟩ := shieldFields_updateSlowTimeTimer
    p.updateInvulnerability.updateDamageFx.updateShieldTimer.updateRapidFireTimer.updateMultiShotTimer
  refine ⟨?_, ?_, ?_⟩ <;>
    simp only [Player.update, f1, f2, f3, e1, e2, e3, d1, d2, d3, c1, c2, c3,
      b1, b2, b3, a1, a2, a3]

lemma shield_countdown (q : Player) (n : ℕ) (hn : 0 < n) (hs : q.hasShield = true)
    (ht : q.shieldTimer = n) :
    ∀ k : ℕ, k ≤ n →
      (Player.update^[k] q).hasShield = decide (k < n) ∧
      (Player.update^[k] q).shieldTimer = (n : ℤ) - k := by
  intro k
  induction k with
  | zero =>
      intro _
      refine ⟨?_, ?_⟩
      · simp [hs, hn]
      · simp [ht]
  | succ k ih =>
      intro hk
      have hk' : k ≤ n := by omega
      obtain ⟨ih1, ih2⟩ := ih hk'
      have hlt : k < n := by omega
      rw [Function.iterate_succ_apply']
      obtain ⟨u1, u2, -⟩ := update_shield_fields (Player.update^[k] q)
      have hd : decide (k < n) = true := by simpa using hlt
      constructor
      · rw [u1, ih1, ih2, hd, Bool.true_and, decide_eq_decide]
        omega
      · rw [u2, ih1, ih2, hd]
        simp only [eq_self_iff_true, if_true]
        push_cast
        ring

lemma shield_off_stable (q : Player) (hs : q.hasShield = false) :
    ∀ j : ℕ, (Player.update^[j] q).hasShield = false ∧
      (Player.update^[j] q).shieldTimer = q.shieldTimer := by
  intro j
  induction j with
  | zero => exact ⟨hs, rfl⟩
  | succ j ih =>
      obtain ⟨ih1, ih2⟩ := ih
      rw [Function.iterate_succ_apply']
      obtain ⟨u1, u2, -⟩ := update_shield_fields (Player.update^[j] q)
      rw [u1, u2, ih1, ih2]
      simp

lemma update_shieldDuration (q : Player) :
    ∀ j : ℕ, (Player.update^[j] q).shieldDuration = q.shieldDuration := by
  intro j
  induction j with
  | zero => rfl
  | succ j ih =>
      rw [Function.iterate_succ_apply']
      obtain ⟨-, -, u3⟩ := update_shield_fields (Player.update^[j] q)
      rw [u3, ih]

/-- **C6.**  Shield power-up timer laws for any player whose configured
`shield_duration` is the game's 600: `activate_shield` sets `has_shield`
and a remaining duration of exactly 600 ticks; after `k` player-update
ticks with no re-pickup, `has_shield` holds iff `k < 600` (so it is off
after exactly 600 ticks); the remaining duration is `600 - min k 600`, so
it never exceeds 600; and a re-pickup at any point resets the remaining
duration to exactly 600 instead of stacking. -/
theorem C6_shield_timer_laws (p : Player) (k : ℕ) (hdur : p.shieldDuration = 600) :
    ((p.activateShield).hasShield = true ∧ (p.activateShield).shieldTimer = 600) ∧
    (Player.update^[k] p.activateShield).hasShield = decide (k < 600) ∧
    (Player.update^[k] p.activateShield).shieldTimer = (600 : ℤ) - min k 600 ∧
    ((Player.update^[k] p.activateShield).activateShield).shieldTimer = 600 := by
  have hact1 : (p.activateShield).hasShield = true := rfl
  have hact2 : (p.activateShield).shieldTimer = 600 := by
    simp [Player.activateShield, hdur]
  have hcount := shield_countdown p.activateShield 600 (by norm_num) hact1
    (by rw [hact2]; norm_num)
  have hshape : ∀ q : Player, (q.activateShield).shieldTimer = q.shieldDuration :=
    fun _ => rfl
  have hreset : ((Player.update^[k] p.activateShield).activateShield).shieldTimer = 600 := by
    rw [hshape, update_shieldDuration p.activateShield k]
    exact hdur
  have hexp : (Player.update^[600] p.activateShield).hasShield = false ∧
      (Player.update^[600] p.activateShield).shieldTimer = 0 := by
    obtain ⟨e1, e2⟩ := hcount 600 le_rfl
    refine ⟨?_, ?_⟩
    · rw [e1]; simp
    · rw [e2]; norm_num
  refine ⟨⟨hact1, hact2⟩, ?_, ?_, hreset⟩
  · rcases le_or_lt k 600 with hk | hk
    · exact (hcount k hk).1
    · obtain ⟨hj, -⟩ := shield_off_stable _ hexp.1 (k - 600)
      rw [← Function.iterate_add_apply, Nat.sub_add_cancel (by omega)] at hj
      rw [hj]
      symm
      simpa using by omega
  · rcases le_or_lt k 600 with hk | hk
    · rw [(hcount k hk).2]
      have : min k 600 = k := by omega
      rw [this]
      norm_num
    · obtain ⟨-, hj⟩ := shield_off_stable _ hexp.1 (k - 600)
      rw [← Function.iterate_add_apply, Nat.sub_add_cancel (by omega)] at hj
      rw [hj, hexp.2]
      have : min k 600 = 600 := by omega
      rw [this]
      norm_num

/-- Witness for `C6_shield_timer_laws` at the freshly constructed game
player and `k = 5`. -/
theorem C6_shield_timer_laws_witness :
    (((mkPlayer 1024 768).activateShield).hasShield = true ∧
      ((mkPlayer 1024 768).activateShield).shieldTimer = 600) ∧
    (Player.update^[5] (mkPlayer 1024 768).activateShield).hasShield = decide (5 < 600) ∧
    (Player.update^[5] (mkPlayer 1024 768).activateShield).shieldTimer
      = (600 : ℤ) - min 5 600 ∧
    ((Player.update^[5] (mkPlayer 1024 768).activateShield).activateShield).shieldTimer
      = 600 :=
  C6_shield_timer_laws (mkPlayer 1024 768) 5 rfl

/-- **C3 (divergence at the failing input).**  At the fresh level-1 game
under normal difficulty, `create_aliens` leaves every new alien at its
class-default speed (1 for `ScoutAlien`) instead of the level's
configured `speed * multiplier = 0.5 * 1.0`: the claim's "aliens created
by create_aliens carry the level's configured speed" fails.  The
`set_difficulty` half of the claim does hold: after `set_difficulty`,
every alien's speed equals the configured speed times the new
multiplier. -/
theorem C3_alien_speed_divergence :
    (∀ a ∈ createAliens 1 1024, a.speed = 1) ∧
    (levelConfig 1).speed * difficultyMultiplier .normal = 1/2 ∧
    (∀ (g : GameState) (d : Difficulty), ∀ a ∈ (g.setDifficulty d).aliens,
      a.speed = (levelConfig g.level).speed * difficultyMultiplier d) := by
  refine ⟨by decide, by norm_num [levelConfig, levelConfigs, difficultyMultiplier], ?_⟩
  intro g d a ha
  simp only [GameState.setDifficulty, List.mem_map] at ha
  obtain ⟨b, -, rfl⟩ := ha
  rfl

/-- **C9.**  `HighScoreManager.load_scores` degrades to an empty
high-score list both when the file is missing and when reading/parsing
raises; as a total function of the file outcome it propagates no
exception. -/
theorem C9_load_scores_fallback (α : Type) (outcome : FileReadOutcome (List α))
    (h : outcome = .missing ∨ outcome = .failure) :
    loadScores outcome = [] := by
  rcases h with h | h <;> subst h <;> rfl

/-- Witness for `C9_load_scores_fallback` on the read-failure outcome. -/
theorem C9_load_scores_fallback_witness :
    loadScores (FileReadOutcome.failure : FileReadOutcome (List ℤ)) = [] :=
  C9_load_scores_fallback ℤ FileReadOutcome.failure (Or.inr rfl)

lemma fireMissile_shape (p : Player) (now : ℤ) :
    (p.fireMissile now).2 = none ∨
    ∃ ms, (p.fireMissile now).2 = some ms ∧ ms.length ≤ 3 := by
  simp only [Player.fireMissile]
  split_ifs <;>
    first
      | (left; rfl)
      | (right; exact ⟨_, rfl, by simp⟩)

/-- **C10.**  The fire path of `handle_movement` appends missiles (at
most 3) only while fewer than 15 player missiles are live, so the
collection never grows beyond 17; with 15 or more live missiles pressing
fire changes nothing, regardless of any cooldown state. -/
theorem C10_fire_cap (g : GameState) (now : ℤ) (space : Bool) :
    (g.fireStep now space).missiles.length ≤ max g.missiles.length 17 ∧
    (15 ≤ g.missiles.length → (g.fireStep now space).missiles = g.missiles) := by
  rcases fireMissile_shape g.player now with h | ⟨ms, h, hlen⟩ <;>
    unfold GameState.fireStep <;> split_ifs <;>
    simp [h, apply_ite GameState.missiles] <;> split_ifs <;> simp <;> omega

/-- Witness for `C10_fire_cap` on a state already holding 15 missiles. -/
theorem C10_fire_cap_witness :
    (cappedGame.fireStep 0 true).missiles.length ≤ max cappedGame.missiles.length 17 ∧
    (cappedGame.fireStep 0 true).missiles = cappedGame.missiles :=
  ⟨(C10_fire_cap cappedGame 0 true).1,
   (C10_fire_cap cappedGame 0 true).2 (by simp [cappedGame])⟩

lemma takeDamage_pos (a : Alien) (mx : ℚ) (d : ℤ) :
    (takeDamage a mx d).1.x = a.x ∧ (takeDamage a mx d).1.y = a.y := by
  cases h : a.archetype
  all_goals simp only [takeDamage, h]
  all_goals repeat' split
  all_goals simp

lemma hitFirstAlien_spec (m : Missile) :
    ∀ (aliens : List Alien) (j : ℕ) (a : Alien),
      aliens.get? j = some a →
      (a.alive && a.checkCollision m) = true →
      (∀ k b, k < j → aliens.get? k = some b → (b.alive && b.checkCollision m) = false) →
      hitFirstAlien m aliens =
        some (aliens.set j (takeDamage a m.x m.damage).1,
          (takeDamage a m.x m.damage).2, a.x, a.y) := by
  intro aliens
  induction aliens with
  | nil => intro j a hget; simp at hget
  | cons c rest ih =>
      intro j a hget hhit hbefore
      cases j with
      | zero =>
          have hca : c = a := by
            simpa using hget
          subst hca
          obtain ⟨px, py⟩ := takeDamage_pos c m.x m.damage
          simp [hitFirstAlien, hhit, px, py]
      | succ j =>
          have hc : (c.alive && c.checkCollision m) = false :=
            hbefore 0 c (Nat.succ_pos j) rfl
          have hrest := ih j a hget (by exact hhit)
            (fun k b hk hg => hbefore (k + 1) b (by omega) hg)
          simp [hitFirstAlien, hc, hrest]

/-- **C7.**  One player missile resolves against at most one alien: the
first living alien in list order whose circle test it passes takes one
`take_damage` call (all other aliens are untouched), the missile is
removed from the collection, the score grows by the level's `points` if
the alien was destroyed and by exactly 5 if it survived, a small
explosion appears at the missile (plus a size-40 one at the alien on a
kill), and on a kill the oracle's drop roll may spawn one power-up at
the alien's position. -/
theorem C7_missile_resolution (o : Oracle) (cfg : LevelConfig) (i : ℕ) (m : Missile)
    (aliens : List Alien) (j : ℕ) (a : Alien)
    (hget : aliens.get? j = some a)
    (hhit : (a.alive && a.checkCollision m) = true)
    (hbefore : ∀ k b, k < j → aliens.get? k = some b →
      (b.alive && b.checkCollision m) = false) :
    missileCollisions o cfg i [m] aliens =
      ([], aliens.set j (takeDamage a m.x m.damage).1,
        (if (takeDamage a m.x m.damage).2 then (cfg.points : ℤ) else 5),
        mkExplosion m.x m.y 30 ::
          (if (takeDamage a m.x m.damage).2 then [mkExplosion a.x a.y 40] else []),
        if (takeDamage a m.x m.damage).2 && o.drops i then
          [spawnRandomPowerup a.x a.y (o.dropTypes i)]
        else []) := by
  have h := hitFirstAlien_spec m aliens j a hget hhit hbefore
  simp only [missileCollisions, h]
  split_ifs <;> simp_all [missileCollisions]

/-- Witness for `C7_missile_resolution`: a missile at the origin misses
the first alien and kills the second (a Scout), scoring the level's
point value. -/
theorem C7_missile_resolution_witness :
    missileCollisions quietOracle (levelConfig 1) 0 [mkMissile 0 0 0 false]
        [mkScout 100 100, mkScout 0 0, mkScout 0 5] =
      ([], [mkScout 100 100,
            (takeDamage (mkScout 0 0) (mkMissile 0 0 0 false).x
              (mkMissile 0 0 0 false).damage).1, mkScout 0 5],
        ((levelConfig 1).points : ℤ),
        [mkExplosion 0 0 30, mkExplosion 0 0 40], []) := by
  have h := C7_missile_resolution quietOracle (levelConfig 1) 0 (mkMissile 0 0 0 false)
    [mkScout 100 100, mkScout 0 0, mkScout 0 5] 1 (mkScout 0 0)
    (by rfl) (by norm_num [mkScout, mkMissile, Alien.checkCollision])
    (by
      intro k b hk hg
      have hk0 : k = 0 := by omega
      subst hk0
      have hb : mkScout 100 100 = b := by simpa using hg
      subst hb
      norm_num [mkScout, mkMissile, Alien.checkCollision])
  rw [h]
  simp [takeDamage, mkScout, mkMissile, quietOracle]

/-- **C8.**  For a player with the game's 120-tick invulnerability
window: while the shield or the invulnerability window is active,
`take_damage` returns `False` and changes nothing (lives and the
invulnerability timer included); otherwise it returns `True`, lives drop
by exactly 1, and if lives remain positive the invulnerability timer is
armed to exactly 120.  In the alien-missile collision phase, a missile
overlapping the player raises `game_over` exactly when the hit was
absorbed-free (damage applied) and the decrement left lives at or below
zero. -/
theorem C8_player_hit (p : Player) (m : Missile)
    (hdur : p.invulnerableDuration = 120)
    (hcol : collideRect (p.x - (p.width : ℤ) / 2) (p.y - (p.height : ℤ) / 2)
        p.width p.height
        (ratTrunc (m.x - ((m.width / 2 : ℕ) : ℚ))) (ratTrunc (m.y - ((m.height / 2 : ℕ) : ℚ)))
        m.width m.height = true) :
    ((p.isInvulnerable = true ∨ p.hasShield = true) → p.takeDamage = (p, false)) ∧
    (p.isInvulnerable = false → p.hasShield = false →
      (p.takeDamage).2 = true ∧
      (p.takeDamage).1.lives = p.lives - 1 ∧
      (0 < p.lives - 1 →
        (p.takeDamage).1.isInvulnerable = true ∧
        (p.takeDamage).1.invulnerableTimer = 120) ∧
      (p.lives - 1 ≤ 0 →
        (p.takeDamage).1.isInvulnerable = p.isInvulnerable ∧
        (p.takeDamage).1.invulnerableTimer = p.invulnerableTimer)) ∧
    ((alienMissileHits [m] p).2.2.1
      = ((p.takeDamage).2 && decide ((p.takeDamage).1.lives ≤ 0))) ∧
    (alienMissileHits [m] p).1 = [] ∧
    (alienMissileHits [m] p).2.1 = (p.takeDamage).1 := by
  refine ⟨?_, ?_, ?_, ?_, ?_⟩
  · rintro (h | h) <;> simp [Player.takeDamage, h]
  · intro h1 h2
    simp only [Player.takeDamage, h1, h2]
    norm_num
    split_ifs with h3 <;> simp_all <;> omega
  · simp [alienMissileHits, hcol]
  · simp [alienMissileHits, hcol]
  · simp [alienMissileHits, hcol]

/-- Witness for `C8_player_hit`: the fresh 3-lives player hit by an
alien missile at its own position. -/
theorem C8_player_hit_witness :
    (((mkPlayer 1024 768).isInvulnerable = true ∨ (mkPlayer 1024 768).hasShield = true) →
      (mkPlayer 1024 768).takeDamage = (mkPlayer 1024 768, false)) ∧
    ((mkPlayer 1024 768).isInvulnerable = false → (mkPlayer 1024 768).hasShield = false →
      ((mkPlayer 1024 768).takeDamage).2 = true ∧
      ((mkPlayer 1024 768).takeDamage).1.lives = (mkPlayer 1024 768).lives - 1 ∧
      (0 < (mkPlayer 1024 768).lives - 1 →
        ((mkPlayer 1024 768).takeDamage).1.isInvulnerable = true ∧
        ((mkPlayer 1024 768).takeDamage).1.invulnerableTimer = 120) ∧
      ((mkPlayer 1024 768).lives - 1 ≤ 0 →
        ((mkPlayer 1024 768).takeDamage).1.isInvulnerable = (mkPlayer 1024 768).isInvulnerable ∧
        ((mkPlayer 1024 768).takeDamage).1.invulnerableTimer
          = (mkPlayer 1024 768).invulnerableTimer)) ∧
    ((alienMissileHits [mkAlienMissile 512 688 0 0] (mkPlayer 1024 768)).2.2.1
      = (((mkPlayer 1024 768).takeDamage).2 &&
          decide (((mkPlayer 1024 768).takeDamage).1.lives ≤ 0))) ∧
    (alienMissileHits [mkAlienMissile 512 688 0 0] (mkPlayer 1024 768)).1 = [] ∧
    (alienMissileHits [mkAlienMissile 512 688 0 0] (mkPlayer 1024 768)).2.1
      = ((mkPlayer 1024 768).takeDamage).1 :=
  C8_player_hit (mkPlayer 1024 768) (mkAlienMissile 512 688 0 0) rfl
    (by norm_num [collideRect, ratTrunc, mkPlayer, mkAlienMissile,
      Player.updateShipAppearance, shipUpgradeDims])


lemma moveAliensLoop_length (o : Oracle) (dir : ℤ) (mult vmove : ℚ) (md : Bool)
    (bottomY : ℚ) :
    ∀ (aliens : List Alien) (i : ℕ),
      (moveAliensLoop o dir mult vmove md bottomY i aliens).1.length = aliens.length := by
  intro aliens
  induction aliens with
  | nil => intro i; rfl
  | cons a rest ih =>
      intro i
      simp only [moveAliensLoop]
      split_ifs <;> simp [ih]

lemma moveAliensLoop_bounce_get (o : Oracle) (dir : ℤ) (mult vmove bottomY : ℚ) :
    ∀ (aliens : List Alien) (i k : ℕ) (a : Alien),
      (moveAliensLoop o dir mult vmove true bottomY i aliens).2.2 = false →
      aliens.get? k = some a →
      (moveAliensLoop o dir mult vmove true bottomY i aliens).1.get? k =
        some (if a.alive then (a.move dir mult (o.drifts (i + k))).moveDown vmove
              else a) := by
  intro aliens
  induction aliens with
  | nil => intro i k a _ hget; simp at hget
  | cons c rest ih =>
      intro i k a hnb hget
      cases k with
      | zero =>
          have hca : c = a := by simpa using hget
          subst hca
          by_cases hc : c.alive = true
          · simp only [moveAliensLoop, hc, if_true] at hnb ⊢
            set a2 := (c.move dir mult (o.drifts i)).moveDown vmove with ha2
            by_cases hbot : a2.y + ((a2.size / 2 : ℕ) : ℚ) > bottomY
            · rw [if_pos hbot] at hnb
              simp at hnb
            · rw [if_neg hbot]
              simp
          · simp only [moveAliensLoop, if_neg hc] at hnb ⊢
            simp
      | succ k =>
          have hget2 : rest.get? k = some a := by simpa using hget
          have harith : i + 1 + k = i + (k + 1) := by omega
          by_cases hc : c.alive = true
          · simp only [moveAliensLoop, hc, if_true] at hnb ⊢
            set a2 := (c.move dir mult (o.drifts i)).moveDown vmove with ha2
            by_cases hbot : a2.y + ((a2.size / 2 : ℕ) : ℚ) > bottomY
            · rw [if_pos hbot] at hnb
              simp at hnb
            · rw [if_neg hbot] at hnb ⊢
              have hnb2 :
                  (moveAliensLoop o dir mult vmove true bottomY (i + 1) rest).2.2
                    = false := by simpa using hnb
              have hrec := ih (i + 1) k a hnb2 hget2
              rw [harith] at hrec
              simpa using hrec
          · simp only [moveAliensLoop, if_neg hc] at hnb ⊢
            have hnb2 :
                (moveAliensLoop o dir mult vmove true bottomY (i + 1) rest).2.2
                  = false := by simpa using hnb
            have hrec := ih (i + 1) k a hnb2 hget2
            rw [harith] at hrec
            simpa using hrec

/-- **C4 (amended).**  In a tick whose formation phase runs, if some
living alien pokes strictly past the right edge while the shared
direction is `+1` (or strictly past the left edge while it is `-1`),
then the direction flips exactly once (to `-dir`), and — provided no
alien reaches the player's row this tick, which aborts the motion loop —
every living alien is moved once with the flipped direction and moved
down by the level's `vertical_move` exactly once (Elites also receive
their per-tick random y-drift inside `move`), while dead aliens stay
put. -/
theorem C4_formation_bounce (o : Oracle) (aliens : List Alien) (width dir : ℤ)
    (mult vmove bottomY : ℚ)
    (hrev : ∃ a ∈ aliens, a.alive = true ∧
      (((width : ℚ) < a.x + ((a.size / 2 : ℕ) : ℚ) ∧ 0 < dir) ∨
       (a.x - ((a.size / 2 : ℕ) : ℚ) < 0 ∧ dir < 0)))
    (hnb : (moveAliensLoop o (-dir) mult vmove true bottomY 0 aliens).2.2 = false) :
    needsReverse aliens width dir = true ∧
    (if needsReverse aliens width dir then -dir else dir) = -dir ∧
    (moveAliensLoop o (-dir) mult vmove true bottomY 0 aliens).1.length
      = aliens.length ∧
    (∀ k a, aliens.get? k = some a →
      (moveAliensLoop o (-dir) mult vmove true bottomY 0 aliens).1.get? k =
        some (if a.alive then (a.move (-dir) mult (o.drifts k)).moveDown vmove
              else a)) := by
  have h1 : needsReverse aliens width dir = true := by
    obtain ⟨a, ha, hal, hcond⟩ := hrev
    simp only [needsReverse, List.any_eq_true]
    refine ⟨a, ha, ?_⟩
    rcases hcond with ⟨hx, hd⟩ | ⟨hx, hd⟩ <;> simp [hal, hx, hd]
  refine ⟨h1, by rw [h1]; simp,
    moveAliensLoop_length o (-dir) mult vmove true bottomY aliens 0, ?_⟩
  intro k a hget
  simpa using moveAliensLoop_bounce_get o (-dir) mult vmove bottomY aliens 0 k a hnb hget

/-- **C4 (counterexample to the claim as stated).**  An alien whose
right edge sits exactly at the playfield width ("at or beyond") with
direction `+1` does not trigger the bounce: the source compares with
strict `>`, so the direction stays `+1` and no formation descent
happens. -/
theorem C4_counterexample :
    (mkScout 1009 100).alive = true ∧
    (mkScout 1009 100).x + (((mkScout 1009 100).size / 2 : ℕ) : ℚ) = 1024 ∧
    needsReverse [mkScout 1009 100] 1024 1 = false ∧
    (if needsReverse [mkScout 1009 100] 1024 1 then -(1 : ℤ) else 1) = 1 := by
  refine ⟨rfl, by norm_num [mkScout], ?_, ?_⟩ <;>
    norm_num [needsReverse, mkScout]

/-- Witness for `C4_formation_bounce`: a single Scout strictly past the
right edge, with no bottom contact. -/
theorem C4_formation_bounce_witness :
    needsReverse [mkScout 1010 100] 1024 1 = true ∧
    (if needsReverse [mkScout 1010 100] 1024 1 then -(1 : ℤ) else 1) = -1 ∧
    (moveAliensLoop quietOracle (-1) 1 8 true 688 0 [mkScout 1010 100]).1.length
      = ([mkScout 1010 100] : List Alien).length ∧
    (∀ k a, ([mkScout 1010 100] : List Alien).get? k = some a →
      (moveAliensLoop quietOracle (-1) 1 8 true 688 0 [mkScout 1010 100]).1.get? k =
        some (if a.alive then (a.move (-1) 1 (quietOracle.drifts k)).moveDown 8
              else a)) :=
  C4_formation_bounce quietOracle [mkScout 1010 100] 1024 1 1 8 688
    ⟨mkScout 1010 100, by simp, rfl,
      Or.inl ⟨by norm_num [mkScout], by norm_num⟩⟩
    (by norm_num [moveAliensLoop, mkScout, Alien.move, Alien.moveDown, quietOracle])


lemma normalTick_level (o : Oracle) (g : GameState) :
    (normalTick o g).level = g.level := by
  simp only [normalTick]
  split_ifs <;> rfl

lemma update_level_stable (o : Oracle) (g : GameState)
    (h : g.levelComplete = false) :
    (GameState.update o g).level = g.level := by
  have hnt := normalTick_level o { g with player := g.player.update }
  simp only [GameState.update]
  split_ifs with h1 h2 h3 h4
  · rfl
  · rfl
  · have hcontra : g.levelComplete = true := h3
    rw [h] at hcontra
    all_goals exact Bool.noConfusion hcontra
  · have hcontra : g.levelComplete = true := h3
    rw [h] at hcontra
    all_goals exact Bool.noConfusion hcontra
  · exact hnt

lemma update_fixed_of_gameWon (o : Oracle) (g : GameState)
    (h : g.gameWon = true) :
    GameState.update o g = g := by
  simp only [GameState.update]
  split_ifs <;> simp_all

lemma createAliens_mem (lvl : ℕ) (w : ℤ) :
    ∀ a ∈ createAliens lvl w,
      a.archetype = (levelConfig lvl).alienClass ∧ a.alive = true := by
  intro a ha
  simp only [createAliens, List.mem_join, List.mem_map] at ha
  obtain ⟨l, hl, hal⟩ := ha
  obtain ⟨row, hrow, rfl⟩ := hl
  obtain ⟨col, hcol, rfl⟩ := List.mem_map.mp hal
  cases h : (levelConfig lvl).alienClass <;>
    simp [mkAlienOfClass, h, mkScout, mkArmored, mkElite]

lemma createAliens_level2 (w : ℤ) :
    (createAliens 2 w).length = 40 ∧
    ∀ a ∈ createAliens 2 w, a.archetype = .armored ∧ a.alive = true := by
  refine ⟨rfl, fun a ha => ?_⟩
  exact createAliens_mem 2 w a ha

/-- **C5.**  The level-complete gate: on a tick that reaches the gate
with `level_complete` set and the level below the maximum, the game
empties the player-missile, alien-missile, power-up, explosion and
effect collections, increments `level` by exactly one, clears the flag,
re-centers (and upgrades) the player — the player also received its
normal per-tick timer update, which runs before the gate — spawns the
new level's alien grid, and does nothing else (score, high score,
direction, `game_over`, `game_won` untouched); at the maximum level the
tick instead only sets `game_won`.  Repeated ticks never double-increment
the level (the flag is now clear) or, after a win, change anything at
all; from level 1 the freshly spawned grid is the 5×8 Armored grid, all
alive. -/
theorem C5_level_gate (o : Oracle) (g : GameState)
    (hhelp : g.helpActive = false) (hstart : g.showStartupMessage = false)
    (hgo : g.gameOver = false) (hgw : g.gameWon = false)
    (hlc : g.levelComplete = true) :
    (g.level < g.maxLevel →
      (GameState.update o g).level = g.level + 1 ∧
      (GameState.update o g).levelComplete = false ∧
      (GameState.update o g).missiles = [] ∧
      (GameState.update o g).alienMissiles = [] ∧
      (GameState.update o g).powerUps = [] ∧
      (GameState.update o g).explosions = [] ∧
      (GameState.update o g).effects = [] ∧
      (GameState.update o g).player =
        ({ g.player.update with x := g.width / 2, velocity := 0 } : Player).levelUp ∧
      (GameState.update o g).aliens = createAliens (g.level + 1) g.width ∧
      (GameState.update o g).score = g.score ∧
      (GameState.update o g).highScore = g.highScore ∧
      (GameState.update o g).alienDirection = g.alienDirection ∧
      (GameState.update o g).gameOver = false ∧
      (GameState.update o g).gameWon = false ∧
      (∀ o2 : Oracle, (GameState.update o2 (GameState.update o g)).level
        = g.level + 1)) ∧
    (¬ g.level < g.maxLevel →
      (GameState.update o g).gameWon = true ∧
      (GameState.update o g).level = g.level ∧
      (GameState.update o g).aliens = g.aliens ∧
      (GameState.update o g).missiles = g.missiles ∧
      (GameState.update o g).score = g.score ∧
      (∀ o2 : Oracle, GameState.update o2 (GameState.update o g)
        = GameState.update o g)) ∧
    (g.level = 1 → g.maxLevel = 3 →
      (GameState.update o g).aliens.length = 40 ∧
      ∀ a ∈ (GameState.update o g).aliens, a.archetype = .armored ∧ a.alive = true) := by
  refine ⟨?_, ?_, ?_⟩
  · intro hlt
    have hu : GameState.update o g = advanceLevel { g with player := g.player.update } := by
      simp [GameState.update, hhelp, hstart, hgo, hgw, hlc, hlt]
    have hlvl : (GameState.update o g).level = g.level + 1 := by
      rw [hu]; rfl
    have hnc : (GameState.update o g).levelComplete = false := by
      rw [hu]; rfl
    refine ⟨hlvl, hnc, by rw [hu]; rfl, by rw [hu]; rfl, by rw [hu]; rfl,
      by rw [hu]; rfl, by rw [hu]; rfl, by rw [hu]; rfl, by rw [hu]; rfl,
      by rw [hu]; rfl, by rw [hu]; rfl, by rw [hu]; rfl, by rw [hu]; exact hgo,
      by rw [hu]; exact hgw, ?_⟩
    intro o2
    rw [update_level_stable o2 _ hnc, hlvl]
  · intro hnlt
    have hu : GameState.update o g
        = { { g with player := g.player.update } with gameWon := true } := by
      simp [GameState.update, hhelp, hstart, hgo, hgw, hlc, hnlt]
    refine ⟨by rw [hu], by rw [hu], by rw [hu], by rw [hu], by rw [hu], ?_⟩
    intro o2
    exact update_fixed_of_gameWon o2 _ (by rw [hu])
  · intro h1 h3
    have hlt : g.level < g.maxLevel := by omega
    have hu : GameState.update o g = advanceLevel { g with player := g.player.update } := by
      simp [GameState.update, hhelp, hstart, hgo, hgw, hlc, hlt]
    have ha : (GameState.update o g).aliens = createAliens 2 g.width := by
      rw [hu]
      simp [advanceLevel, h1]
    rw [ha]
    exact createAliens_level2 g.width

/-- Witness for `C5_level_gate`: the fresh game with level 1 just
completed, under the quiet oracle. -/
theorem C5_level_gate_witness :
    (levelCompleteGame.level < levelCompleteGame.maxLevel →
      (GameState.update quietOracle levelCompleteGame).level = levelCompleteGame.level + 1 ∧
      (GameState.update quietOracle levelCompleteGame).levelComplete = false ∧
      (GameState.update quietOracle levelCompleteGame).missiles = [] ∧
      (GameState.update quietOracle levelCompleteGame).alienMissiles = [] ∧
      (GameState.update quietOracle levelCompleteGame).powerUps = [] ∧
      (GameState.update quietOracle levelCompleteGame).explosions = [] ∧
      (GameState.update quietOracle levelCompleteGame).effects = [] ∧
      (GameState.update quietOracle levelCompleteGame).player =
        ({ levelCompleteGame.player.update with x := levelCompleteGame.width / 2, velocity := 0 } : Player).levelUp ∧
      (GameState.update quietOracle levelCompleteGame).aliens = createAliens (levelCompleteGame.level + 1) levelCompleteGame.width ∧
      (GameState.update quietOracle levelCompleteGame).score = levelCompleteGame.score ∧
      (GameState.update quietOracle levelCompleteGame).highScore = levelCompleteGame.highScore ∧
      (GameState.update quietOracle levelCompleteGame).alienDirection = levelCompleteGame.alienDirection ∧
      (GameState.update quietOracle levelCompleteGame).gameOver = false ∧
      (GameState.update quietOracle levelCompleteGame).gameWon = false ∧
      (∀ o2 : Oracle, (GameState.update o2 (GameState.update quietOracle levelCompleteGame)).level
        = levelCompleteGame.level + 1)) ∧
    (¬ levelCompleteGame.level < levelCompleteGame.maxLevel →
      (GameState.update quietOracle levelCompleteGame).gameWon = true ∧
      (GameState.update quietOracle levelCompleteGame).level = levelCompleteGame.level ∧
      (GameState.update quietOracle levelCompleteGame).aliens = levelCompleteGame.aliens ∧
      (GameState.update quietOracle levelCompleteGame).missiles = levelCompleteGame.missiles ∧
      (GameState.update quietOracle levelCompleteGame).score = levelCompleteGame.score ∧
      (∀ o2 : Oracle, GameState.update o2 (GameState.update quietOracle levelCompleteGame)
        = GameState.update quietOracle levelCompleteGame)) ∧
    (levelCompleteGame.level = 1 → levelCompleteGame.maxLevel = 3 →
      (GameState.update quietOracle levelCompleteGame).aliens.length = 40 ∧
      ∀ a ∈ (GameState.update quietOracle levelCompleteGame).aliens, a.archetype = .armored ∧ a.alive = true) :=
  C5_level_gate quietOracle levelCompleteGame rfl rfl rfl rfl rfl


end VibeInvaders
